import Mathlib

/-!
Verification of the SmartContract.ai document-ingestion and RAG pipeline.

The JavaScript source (server/services/ollamaService.js, server/routes/contracts.js,
server/routes/chat.js, server/config/applicationKnowledge.js) is shallowly embedded:
pure string manipulation is translated to Lean string functions, the stateful
vector-store service to explicit state passing, and every call into an external
backend (the Ollama generation/embedding endpoints, the Tesseract OCR engine,
the pdf parser, the langchain recursive text splitter, the Supabase database)
is a parameter of the embedding.  JavaScript regular-expression tests are
translated to equivalent substring predicates.  All string functions recurse
structurally over the character list so that concrete runs reduce inside the
kernel.
-/

deriving instance DecidableEq for Except

namespace SCAI

/-- The characters the JavaScript whitespace class matches on the ASCII inputs
this development evaluates (space, tab, newline, carriage return, vertical tab,
form feed). -/
def isJsWs (c : Char) : Bool :=
  c = ' ' || c = '\t' || c = '\n' || c = '\x0d' || c = '\x0b' || c = '\x0c'

/-- JavaScript String.prototype.trim: strip whitespace from both ends. -/
def jsTrim (s : String) : String :=
  String.mk (((s.toList.dropWhile isJsWs).reverse.dropWhile isJsWs).reverse)

/-- Lowercase a string character by character (the embedded code compares only
ASCII, where this agrees with JavaScript toLowerCase and preserves length). -/
def lowerStr (s : String) : String :=
  String.mk (s.toList.map Char.toLower)

/-- Whether the first list is a prefix of the second. -/
def isPrefixCh : List Char → List Char → Bool
  | [], _ => true
  | _ :: _, [] => false
  | a :: as, b :: bs => a == b && isPrefixCh as bs

/-- The index of the first occurrence of `pat` in `l` (`some 0` for the empty
pattern, as JavaScript indexOf). -/
def findPat (pat : List Char) : List Char → Option Nat
  | [] => if pat.isEmpty then some 0 else none
  | c :: rest =>
    if isPrefixCh pat (c :: rest) then some 0
    else (findPat pat rest).map (· + 1)

/-- JavaScript String.prototype.includes. -/
def strContains (s pat : String) : Bool :=
  (findPat pat.toList s.toList).isSome

/-- The character index of the first occurrence of `pat` in `s`. -/
def idxOfFirst (s pat : String) : Option Nat :=
  findPat pat.toList s.toList

/-- The character index just after the first occurrence of `pat` in `s`. -/
def idxAfterFirst (s pat : String) : Option Nat :=
  (findPat pat.toList s.toList).map (· + pat.length)

/-- Drop the first `n` characters. -/
def strDrop (s : String) (n : Nat) : String :=
  String.mk (s.toList.drop n)

/-- Take the first `n` characters (JavaScript substring(0, n)). -/
def strTake (s : String) (n : Nat) : String :=
  String.mk (s.toList.take n)

/-- Whether `s` starts with `pre`. -/
def strStartsWith (s pre : String) : Bool :=
  isPrefixCh pre.toList s.toList

/-- Join a list of strings with a separator (JavaScript Array.prototype.join). -/
def joinWith (sep : String) : List String → String
  | [] => ""
  | [x] => x
  | x :: rest => x ++ sep ++ joinWith sep rest

/-- Whether `w` occurs in `s` with `k` occurring at or after its end
(regex `w.*k` within one line): decided at the first occurrence of `w`, which
is the most permissive match position. -/
def containsInOrder (s w k : String) : Bool :=
  match idxAfterFirst s w with
  | none => false
  | some i => strContains (strDrop s i) k

/-- Split a character list at every character satisfying `p` (separators are
dropped; like JavaScript split on a single-character class). -/
def splitChP (p : Char → Bool) : List Char → List (List Char)
  | [] => [[]]
  | c :: rest =>
    let r := splitChP p rest
    if p c then [] :: r
    else
      match r with
      | [] => [[c]]
      | h :: t => (c :: h) :: t

/-- The segments of `s` between line terminators (the JavaScript dot matches
neither `\n` nor `\r`, so an unflagged `x.*y` must find both on one segment). -/
def splitLines (s : String) : List String :=
  (splitChP (fun c => c = '\n' || c = '\x0d') s.toList).map String.mk

/-- Replace every run of whitespace by a single space
(JavaScript `replace(/\s+/g, ' ')`): the flag records whether the previous
character was inside a whitespace run (structural recursion, so concrete runs
reduce in the kernel). -/
def collapseWsAux : List Char → Bool → List Char
  | [], _ => []
  | c :: rest, prevWs =>
    if isJsWs c then
      if prevWs then collapseWsAux rest true
      else ' ' :: collapseWsAux rest true
    else c :: collapseWsAux rest false

/-- String version of `collapseWsAux`. -/
def collapseWs (s : String) : String :=
  String.mk (collapseWsAux s.toList false)

/-- The index of the last newline character in `w`, if any. -/
def lastNlIdx (w : List Char) : Option Nat :=
  (List.range w.length).foldl
    (fun acc i => if w.getD i ' ' = '\n' then some i else acc) none

/-- JavaScript `replace(/\n\s*\n/g, '\n')`: a newline followed by optional
whitespace and another newline collapses to one newline; scanning resumes after
the replaced region, and the greedy-with-backtracking match ends at the last
newline inside the whitespace run.  The fuel argument (instantiated with the
list length, enough because every step consumes at least one character) keeps
the recursion structural so concrete runs reduce in the kernel. -/
def nlRunsFuel : Nat → List Char → List Char
  | 0, l => l
  | _ + 1, [] => []
  | fuel + 1, c :: rest =>
    if c = '\n' then
      match lastNlIdx (rest.takeWhile isJsWs) with
      | none => c :: nlRunsFuel fuel rest
      | some i => '\n' :: nlRunsFuel fuel (rest.drop (i + 1))
    else c :: nlRunsFuel fuel rest

/-- String version of `nlRunsFuel`. -/
def replaceNlRuns (s : String) : String :=
  String.mk (nlRunsFuel s.toList.length s.toList)

/-- The number of maximal whitespace runs in a character list; the flag
records whether the previous character was inside a run. -/
def wsRunCountAux : List Char → Bool → Nat
  | [], _ => 0
  | c :: rest, prevWs =>
    if isJsWs c then (if prevWs then 0 else 1) + wsRunCountAux rest true
    else wsRunCountAux rest false

/-- The length of JavaScript `s.split(/\s+/)`: one more than the number of
maximal whitespace runs (empty pieces at either end are kept by split). -/
def splitWsCount (s : String) : Nat :=
  wsRunCountAux s.toList false + 1

/-- The first token of JavaScript `s.split(' ')`: the characters before the
first plain space (the whole string when there is none). -/
def headWord (s : String) : String :=
  String.mk (s.toList.takeWhile (fun c => c != ' '))

/-! ## answerQuestion: greeting detection (ollamaService.js) -/

/-- The alternatives of the greeting pattern
`/^(hi|hello|hey|greetings|good morning|good afternoon|good evening|how are you|what's up|yo)[\s!?]*$/i`. -/
def greetingWords : List String :=
  ["hi", "hello", "hey", "greetings", "good morning", "good afternoon",
   "good evening", "how are you", "what\'s up", "yo"]

/-- The characters the greeting pattern accepts after the greeting word:
whitespace, exclamation mark or question mark. -/
def isGreetingTrailer (c : Char) : Bool :=
  isJsWs c || c = '!' || c = '?'

/-- `greetingPatterns.test(question.trim())`: the trimmed question is, case
insensitively, a canonical greeting followed only by whitespace, `!` or `?`. -/
def matchesGreeting (question : String) : Bool :=
  let t := lowerStr (jsTrim question)
  greetingWords.any fun g =>
    strStartsWith t g && ((t.toList.drop g.length).all isGreetingTrailer)

/-- The four canned greeting responses of answerQuestion. -/
def greetingResponses : List String :=
  ["Hi there! 👋 I\'m your SmartContract.ai assistant! I can help you with document analysis, answer questions about the platform, guide you through features, or just have a friendly chat. What would you like to know about?",
   "Hello! Welcome to SmartContract.ai! 😊 I\'m here to help you with contract analysis, platform features, document processing, or any questions you might have. How can I assist you today?",
   "Hey! Great to see you using SmartContract.ai! I\'m your AI companion for all things related to contract intelligence, document analysis, and platform guidance. What can I help you explore?",
   "Hi! I\'m your SmartContract.ai assistant, ready to help with document analysis, platform questions, feature guidance, or general conversation. What\'s on your mind today?"]

/-! ## isApplicationQuery (ollamaService.js) -/

/-- `isApplicationQuery`: whether any of the twelve unanchored
case-insensitive patterns of `appQuestionPatterns` matches the question.
Alternation-of-literals patterns become substring tests on the lowercased
question; the one pattern with `.*` becomes an in-order two-substring test on
each line (the JavaScript dot does not cross line terminators). -/
def isApplicationQuery (question : String) : Bool :=
  let q := lowerStr question
  (["what is", "what does", "what can", "what features", "what capabilities"].any
    fun p => strContains q p) ||
  (["how do i", "how to", "how does", "how can i"].any fun p => strContains q p) ||
  (["smartcontract.ai", "smart contract ai"].any fun p => strContains q p) ||
  ((["tell me about", "explain", "describe"].flatMap fun a =>
    ["this", "the"].flatMap fun b =>
      ["app", "application", "platform", "system"].map fun c =>
        a ++ " " ++ b ++ " " ++ c).any fun p => strContains q p) ||
  ((splitLines q).any fun line =>
    ["what", "how", "why", "when", "where"].any fun w =>
      ["app", "application", "platform", "system", "features", "upload",
       "document", "contract", "analysis"].any fun k => containsInOrder line w k) ||
  (["privacy", "security", "data", "policy", "policies"].any fun p => strContains q p) ||
  (["support", "help", "guide", "tutorial", "setup"].any fun p => strContains q p) ||
  (["technical", "specs", "requirements", "performance"].any fun p => strContains q p) ||
  (["pricing", "cost", "free", "payment"].any fun p => strContains q p) ||
  (["file types", "formats", "supported"].any fun p => strContains q p) ||
  (["ollama", "ai model", "local processing"].any fun p => strContains q p) ||
  (["registration", "login", "account", "user"].any fun p => strContains q p)

/-! ## The application knowledge base (applicationKnowledge.js) and
getRelevantAppKnowledge (ollamaService.js) -/

/-- JSON.stringify escaping for one character (the knowledge base contains no
character that needs escaping, but the translation keeps the rule). -/
def jsonEscapeChar (c : Char) : List Char :=
  if c = '\x22' then ['\\', '\x22']
  else if c = '\\' then ['\\', '\\']
  else if c = '\n' then ['\\', 'n']
  else if c = '\x0d' then ['\\', 'r']
  else if c = '\t' then ['\\', 't']
  else [c]

/-- A JSON string literal. -/
def jsonStr (s : String) : String :=
  "\x22" ++ String.mk (s.toList.flatMap jsonEscapeChar) ++ "\x22"

/-- JSON.stringify of a flat object with string values (insertion order). -/
def jsonObjOfStrs (fields : List (String × String)) : String :=
  "\x7b" ++ joinWith "," (fields.map fun f => jsonStr f.1 ++ ":" ++ jsonStr f.2) ++ "\x7d"

/-- JSON.stringify of an array of strings. -/
def jsonArrOfStrs (xs : List String) : String :=
  "[" ++ joinWith "," (xs.map jsonStr) ++ "]"

/-- JSON.stringify of an object whose values are already rendered JSON. -/
def jsonObjOfRaw (fields : List (String × String)) : String :=
  "\x7b" ++ joinWith "," (fields.map fun f => jsonStr f.1 ++ ":" ++ f.2) ++ "\x7d"

/-- APPLICATION_KNOWLEDGE.appInfo. -/
def appInfoFields : List (String × String) :=
  [("name", "SmartContract.ai"),
   ("description", "An AI-powered contract intelligence platform for document analysis and interaction"),
   ("version", "1.0.0"),
   ("architecture", "React frontend + Node.js backend + local Ollama AI"),
   ("purpose", "Upload legal documents and interact with them through intelligent chatbot using RAG technology")]

/-- APPLICATION_KNOWLEDGE.policies.privacy. -/
def privacyFields : List (String × String) :=
  [("data_processing", "All AI processing happens locally using Ollama - no data sent to external APIs"),
   ("data_storage", "Documents stored securely in Supabase database"),
   ("user_data", "User authentication data is encrypted and hashed"),
   ("local_ai", "Complete privacy with local AI models - no external API calls for document analysis")]

/-- APPLICATION_KNOWLEDGE.policies.security. -/
def securityFields : List (String × String) :=
  [("authentication", "JWT-based authentication with bcrypt password hashing"),
   ("access_control", "Users can only access their own documents"),
   ("api_security", "Rate limiting and input validation on all endpoints"),
   ("local_processing", "Sensitive document content never leaves your local environment")]

/-- APPLICATION_KNOWLEDGE.policies.usage_limits. -/
def usageLimitsFields : List (String × String) :=
  [("file_size", "Maximum file size: 10MB per upload"),
   ("file_types", "Supported: PDF, DOC, DOCX, JPG, PNG, TIFF, TXT"),
   ("processing", "Documents processed sequentially for optimal performance"),
   ("storage", "Uses Supabase free tier (500MB database, 50MB file storage)")]

/-- APPLICATION_KNOWLEDGE.features.core. -/
def featuresCore : List String :=
  ["Document Upload & Processing (PDF, Word, Images, Text)",
   "AI-Powered Contract Analysis using local Ollama models",
   "Advanced OCR with Tesseract.js + AI cleanup",
   "Interactive RAG Chat for document queries",
   "Real-time Processing with live status updates",
   "Secure User Management & Authentication",
   "Local AI Processing (no external API costs)",
   "Modern responsive UI with Tailwind CSS"]

/-- APPLICATION_KNOWLEDGE.features.ai_capabilities. -/
def aiCapabilities : List String :=
  ["Contract risk assessment and analysis",
   "Key terms extraction and identification",
   "Context-aware question answering",
   "Semantic document search using vector embeddings",
   "OCR enhancement for scanned documents",
   "Multi-document RAG for comprehensive insights",
   "Natural language document interaction"]

/-- APPLICATION_KNOWLEDGE.features.supported_formats. -/
def supportedFormats : List String :=
  ["PDF documents",
   "Microsoft Word files (.doc, .docx)",
   "Images (JPG, PNG, TIFF, etc.) with OCR",
   "Plain text files",
   "Scanned documents through OCR processing"]

/-- APPLICATION_KNOWLEDGE.technical_specs, stringified. -/
def technicalSpecsJson : String :=
  jsonObjOfRaw
    [("ai_models", jsonObjOfStrs
       [("text_generation", "llama3.2:3b (optimized for RTX 3050 4GB VRAM)"),
        ("embeddings", "nomic-embed-text for vector search and RAG"),
        ("ocr", "Tesseract.js for image text extraction"),
        ("context_size", "8192 tokens (configurable up to 128K for Llama 3.2)"),
        ("gpu_optimization", "32 GPU layers for RTX 3050 acceleration")]),
     ("performance", jsonObjOfStrs
       [("typical_response", "2-5 seconds for document queries"),
        ("processing_time", "Varies by document size and complexity"),
        ("memory_usage", "Optimized for 8GB+ RAM systems"),
        ("gpu_requirements", "4GB+ VRAM recommended for optimal performance")]),
     ("system_requirements", jsonObjOfStrs
       [("minimum", "8GB RAM, 4GB VRAM, 10GB storage"),
        ("recommended", "16GB+ RAM, 6GB+ VRAM, SSD storage"),
        ("os_support", "Windows, macOS, Linux (via Ollama)"),
        ("dependencies", "Node.js 16+, Ollama, Supabase account")])]

/-- APPLICATION_KNOWLEDGE.user_guide.getting_started. -/
def gettingStarted : List String :=
  ["Create an account using the registration form",
   "Log in to access your personal dashboard",
   "Upload documents using the drag-and-drop interface",
   "Wait for AI processing to complete (status updates provided)",
   "Start chatting with your documents using natural language"]

/-- APPLICATION_KNOWLEDGE.user_guide.best_practices. -/
def bestPractices : List String :=
  ["Upload clear, high-quality document scans for better OCR results",
   "Use specific questions for more accurate AI responses",
   "Break complex queries into smaller, focused questions",
   "Review AI analysis as advisory information, not legal advice",
   "Keep documents organized with descriptive titles"]

/-- APPLICATION_KNOWLEDGE.api_endpoints, stringified. -/
def apiEndpointsJson : String :=
  jsonObjOfRaw
    [("authentication", jsonArrOfStrs
       ["POST /api/auth/register - User registration",
        "POST /api/auth/login - User authentication",
        "POST /api/auth/forgot-password - Password reset request",
        "POST /api/auth/reset-password - Password reset with token",
        "GET /api/auth/profile - User profile information"]),
     ("document_management", jsonArrOfStrs
       ["POST /api/contracts/upload - Upload and process documents",
        "GET /api/contracts - List user\'s documents",
        "GET /api/contracts/:id - Get specific document",
        "DELETE /api/contracts/:id - Delete document",
        "GET /api/contracts/:id/analysis - Get AI analysis"]),
     ("chat_and_rag", jsonArrOfStrs
       ["POST /api/chat/query - Send questions to AI (with or without document context)",
        "GET /api/chat/sessions/:contractId - Get chat history for document",
        "DELETE /api/chat/sessions/:sessionId - Clear chat session"]),
     ("system", jsonArrOfStrs
       ["GET /health - System health check (Supabase + Ollama status)",
        "GET /api/notifications - User notifications",
        "PUT /api/notifications/:id/read - Mark notification as read"])]

/-- A frequently-asked-question entry. -/
structure FaqEntry where
  question : String
  answer : String
  deriving Repr, DecidableEq

/-- APPLICATION_KNOWLEDGE.faq.general. -/
def faqGeneral : List FaqEntry :=
  [⟨"What is SmartContract.ai?",
    "SmartContract.ai is an AI-powered platform that lets you upload legal documents and chat with them using advanced AI. It provides contract analysis, risk assessment, and natural language interaction with your documents."⟩,
   ⟨"How does the AI work?",
    "We use local Ollama AI models (llama3.2:3b) for text generation and nomic-embed-text for document search. Everything runs locally on your machine for complete privacy."⟩,
   ⟨"Is my data private?",
    "Yes! All AI processing happens locally using Ollama. Your documents never leave your environment for AI analysis. We use Supabase for secure document storage."⟩,
   ⟨"What file types are supported?",
    "We support PDF, Word documents, images (with OCR), and text files. Maximum file size is 10MB."⟩]

/-- APPLICATION_KNOWLEDGE.faq.technical. -/
def faqTechnical : List FaqEntry :=
  [⟨"What hardware do I need?",
    "Minimum: 8GB RAM, 4GB VRAM. Recommended: 16GB+ RAM, 6GB+ VRAM. The system is optimized for RTX 3050 and similar GPUs."⟩,
   ⟨"How fast is document processing?",
    "Typical response time is 2-5 seconds for queries. Initial document processing depends on size and complexity but provides real-time status updates."⟩,
   ⟨"Can I use this offline?",
    "The AI processing works offline once Ollama models are installed. You need internet for user authentication and document storage via Supabase."⟩]

/-- APPLICATION_KNOWLEDGE.faq.usage. -/
def faqUsage : List FaqEntry :=
  [⟨"How do I get the best results?",
    "Upload clear, high-quality documents, ask specific questions, and break complex queries into smaller parts. The AI works best with well-structured documents."⟩,
   ⟨"Is the AI analysis legally binding?",
    "No, our AI analysis is advisory only and should not be considered legal advice. Always consult qualified legal professionals for legal matters."⟩,
   ⟨"Can I analyze multiple documents together?",
    "Yes! Our RAG system can search across all your uploaded documents to provide comprehensive insights and cross-document analysis."⟩]

/-- JSON.stringify of a list of FAQ entries. -/
def jsonFaqArr (l : List FaqEntry) : String :=
  "[" ++ joinWith "," (l.map fun f =>
    jsonObjOfStrs [("question", f.question), ("answer", f.answer)]) ++ "]"

/-- `getRelevantAppKnowledge`: assemble the platform-knowledge context from the
topic checks, the FAQ first-word match, and (for application queries) the
unshifted app-information entry, joined with blank lines. -/
def getRelevantAppKnowledge (question : String) : String :=
  let lowerQuestion := lowerStr question
  let i1 :=
    if strContains lowerQuestion "privacy" || strContains lowerQuestion "data" ||
       strContains lowerQuestion "security" then
      ["Privacy & Security: " ++ jsonObjOfStrs privacyFields,
       "Security Details: " ++ jsonObjOfStrs securityFields]
    else []
  let i2 :=
    if strContains lowerQuestion "feature" || strContains lowerQuestion "what can" ||
       strContains lowerQuestion "capabilities" then
      ["Core Features: " ++ joinWith ", " featuresCore,
       "AI Capabilities: " ++ joinWith ", " aiCapabilities]
    else []
  let i3 :=
    if strContains lowerQuestion "file" || strContains lowerQuestion "format" ||
       strContains lowerQuestion "upload" then
      ["Supported Formats: " ++ joinWith ", " supportedFormats,
       "Usage Limits: " ++ jsonObjOfStrs usageLimitsFields]
    else []
  let i4 :=
    if strContains lowerQuestion "technical" || strContains lowerQuestion "requirement" ||
       strContains lowerQuestion "performance" || strContains lowerQuestion "hardware" then
      ["Technical Specs: " ++ technicalSpecsJson]
    else []
  let i5 :=
    if strContains lowerQuestion "how to" || strContains lowerQuestion "guide" ||
       strContains lowerQuestion "setup" || strContains lowerQuestion "start" then
      ["Getting Started: " ++ joinWith ", " gettingStarted,
       "Best Practices: " ++ joinWith ", " bestPractices]
    else []
  let i6 :=
    if strContains lowerQuestion "api" || strContains lowerQuestion "endpoint" then
      ["API Endpoints: " ++ apiEndpointsJson]
    else []
  let allFAQ := faqGeneral ++ faqTechnical ++ faqUsage
  let relevantFAQ := allFAQ.filter fun f =>
    strContains (lowerStr f.question) (headWord lowerQuestion) ||
    strContains lowerQuestion (headWord (lowerStr f.question))
  let i7 :=
    if relevantFAQ.length > 0 then ["Relevant FAQ: " ++ jsonFaqArr relevantFAQ]
    else []
  let base := i1 ++ i2 ++ i3 ++ i4 ++ i5 ++ i6 ++ i7
  let infos :=
    if isApplicationQuery question then
      ("App Information: " ++ jsonObjOfStrs appInfoFields) :: base
    else base
  joinWith "\n\n" infos

/-! ## Passages and the in-memory vector index -/

/-- One stored chunk: page content plus the metadata the pipeline attaches
(contractId, fileName, title, userId). -/
structure Passage where
  content : String
  contractId : String
  fileName : String
  title : String
  userId : String
  deriving Repr, DecidableEq

/-- Stable insertion into a descending-by-score list (a tying element goes
after earlier ones, so the sort below is stable). -/
def insertDesc (score : Passage → Int) (p : Passage) : List Passage → List Passage
  | [] => [p]
  | q :: rest => if score q < score p then p :: q :: rest else q :: insertDesc score p rest

/-- Stable sort by descending score. -/
def sortDesc (score : Passage → Int) : List Passage → List Passage
  | [] => []
  | p :: rest => insertDesc score p (sortDesc score rest)

/-- MemoryVectorStore.similaritySearch over a concrete store: the `k`
best-scoring passages under the similarity function `score` (the embedding
backend is external, so the score is a parameter), ties broken by insertion
order. -/
def topKPassages (score : Passage → Int) (ps : List Passage) (k : Nat) : List Passage :=
  (sortDesc score ps).take k

/-- langchain `splitDocuments`: each document is cut into content chunks by the
external splitter, every chunk inheriting the document's metadata. -/
def splitDocuments (splitText : String → List String) (docs : List Passage) : List Passage :=
  docs.flatMap fun d => (splitText d.content).map fun c => { d with content := c }

/-- The OllamaService singleton's mutable stores: the single global
`vectorStore` and the per-user `userVectorStores` map. -/
structure OllamaState where
  vectorStore : Option (List Passage)
  userVectorStores : List (String × List Passage)
  deriving Repr, DecidableEq

/-- The empty service state at process start. -/
def initialOllamaState : OllamaState := ⟨none, []⟩

/-- JavaScript Map.set: update the entry in place, or append a new one. -/
def mapSet {α : Type} : List (String × α) → String → α → List (String × α)
  | [], u, v => [(u, v)]
  | (k, w) :: rest, u, v =>
    if k == u then (k, v) :: rest else (k, w) :: mapSet rest u v

/-- JavaScript Map.delete (keys are unique by construction of `mapSet`). -/
def mapDelete {α : Type} : List (String × α) → String → List (String × α)
  | [], _ => []
  | (k, w) :: rest, u => if k == u then rest else (k, w) :: mapDelete rest u

/-- `createVectorStore`: split the documents and replace the global store. -/
def createVectorStore (splitText : String → List String) (st : OllamaState)
    (docs : List Passage) : OllamaState :=
  { st with vectorStore := some (splitDocuments splitText docs) }

/-- `addDocuments`: append chunks to the global store, creating it if absent. -/
def addDocumentsSvc (splitText : String → List String) (st : OllamaState)
    (docs : List Passage) : OllamaState :=
  match st.vectorStore with
  | none => createVectorStore splitText st docs
  | some ps => { st with vectorStore := some (ps ++ splitDocuments splitText docs) }

/-- `similaritySearch`: fails when the global store was never initialized,
otherwise the top-k passages. -/
def similaritySearchSvc (score : String → Passage → Int) (store : Option (List Passage))
    (query : String) (k : Nat) : Except String (List Passage) :=
  match store with
  | none => .error "Vector store not initialized. Please add documents first."
  | some ps => .ok (topKPassages (score query) ps k)

/-- `addDocumentsWithIsolation`: split and store under the user's own entry of
`userVectorStores`, creating the entry on first use. -/
def addDocumentsWithIsolation (splitText : String → List String) (st : OllamaState)
    (docs : List Passage) (userId : String) : OllamaState :=
  match st.userVectorStores.lookup userId with
  | none =>
    { st with userVectorStores :=
        mapSet st.userVectorStores userId (splitDocuments splitText docs) }
  | some ps =>
    { st with userVectorStores :=
        mapSet st.userVectorStores userId (ps ++ splitDocuments splitText docs) }

/-- `getUserVectorStore`. -/
def getUserVectorStore (st : OllamaState) (userId : String) : Option (List Passage) :=
  st.userVectorStores.lookup userId

/-- `cleanupUserVectorStore`: drop the user's whole store entry if present. -/
def cleanupUserVectorStore (st : OllamaState) (userId : String) : OllamaState × Bool :=
  if (st.userVectorStores.lookup userId).isSome then
    ({ st with userVectorStores := mapDelete st.userVectorStores userId }, true)
  else (st, false)

/-! ## Contracts (the rows the routes read and write) -/

/-- A contracts row as the embedded routes see it. -/
structure Contract where
  id : String
  userId : String
  title : String
  fileName : String
  content : Option String
  status : String
  deriving Repr, DecidableEq

/-- The database query of `loadUserDocuments` and of the chat route's general
branch: the user's completed contracts with non-null content. -/
def userCompletedContracts (db : List Contract) (userId : String) : List Contract :=
  db.filter fun c => c.userId == userId && c.status == "completed" && c.content.isSome

/-- `loadUserDocuments`: map the user's completed contracts to documents whose
metadata carries this user's id, and rebuild the single global store from them;
returns false (leaving the store untouched) when the user has none. -/
def loadUserDocuments (splitText : String → List String) (st : OllamaState)
    (db : List Contract) (userId : String) : OllamaState × Bool :=
  let contracts := userCompletedContracts db userId
  if contracts.isEmpty then (st, false)
  else
    let documents := contracts.map fun c =>
      { content := c.content.getD "", contractId := c.id, fileName := c.fileName,
        title := if c.title.isEmpty then c.fileName else c.title,
        userId := userId : Passage }
    (createVectorStore splitText st documents, true)

/-! ## answerQuestion (ollamaService.js) -/

/-- Whether an optional string argument is JavaScript-falsy (absent or empty). -/
def jsFalsyStr : Option String → Bool
  | none => true
  | some s => s.isEmpty

/-- The passages step 4 of answerQuestion retrieves: empty unless the explicit
context is falsy, the question is not a platform question, and the global store
exists; then `similaritySearch(question, 3)`. -/
def retrievedPassages (score : String → Passage → Int) (question : String)
    (context : Option String) (store : Option (List Passage)) : List Passage :=
  if !jsFalsyStr context then []
  else if isApplicationQuery question then []
  else
    match store with
    | some ps => topKPassages (score question) ps 3
    | none => []

/-- The context string steps 2-4 of answerQuestion assemble: the explicit
context verbatim when truthy; else platform knowledge for application
questions; else the retrieved passages' contents joined with blank lines; else
empty. -/
def assembleContext (score : String → Passage → Int) (question : String)
    (context : Option String) (store : Option (List Passage)) : String :=
  if !jsFalsyStr context then context.getD ""
  else if isApplicationQuery question then getRelevantAppKnowledge question
  else
    match store with
    | some ps => joinWith "\n\n" ((topKPassages (score question) ps 3).map (·.content))
    | none => ""

/-- The platform-question prompt template of answerQuestion. -/
def appPrompt (contextText question : String) : String :=
  "You are the friendly, knowledgeable AI assistant for SmartContract.ai, an AI-powered contract intelligence platform. You have comprehensive knowledge about the application, its features, policies, and technical details. Communicate naturally and be helpful in explaining the platform\'s capabilities.\n\nWhen answering questions about SmartContract.ai, use the provided application knowledge to give accurate, detailed responses. Be enthusiastic about the platform\'s features while being honest about limitations. Use phrases like \"SmartContract.ai offers...\", \"With our platform, you can...\", \"Our AI system uses...\", etc.\n\nSmartContract.ai Platform Knowledge:\n"
  ++ contextText ++ "\n\nUser Question: " ++ question
  ++ "\n\nProvide a comprehensive, friendly response about SmartContract.ai:"

/-- The document-grounded prompt template of answerQuestion. -/
def docPrompt (contextText question : String) : String :=
  "You are a friendly, conversational AI assistant for SmartContract.ai. You communicate naturally like ChatGPT - being helpful, clear, and engaging. You can analyze documents, answer questions about contracts, and provide general assistance. When documents are provided, you can analyze them in detail.\n\nBe natural and personable in your response. If there\'s document context, use phrases like \"I can see from the document that...\", \"Based on what I\'m reading here...\", etc. If the question isn\'t related to the document, feel free to answer it generally and conversationally while keeping in mind you\'re part of the SmartContract.ai platform.\n\nDocument Context:\n"
  ++ contextText ++ "\n\nUser Question: " ++ question
  ++ "\n\nPlease provide a natural, conversational response:"

/-- The open prompt template of answerQuestion (no context assembled). -/
def generalPrompt (question : String) : String :=
  "You are a friendly, conversational AI assistant for SmartContract.ai, an AI-powered contract intelligence platform. You communicate naturally - being helpful, clear, and engaging. You can help with contract questions, document analysis, general legal concepts, or any other topics users might ask about.\n\nAnswer the user\'s question in a natural, conversational way. Be personable and use natural language patterns. Feel free to use phrases like \"Great question!\", \"I\'d be happy to help with that\", \"Here\'s what I can tell you...\", etc. If relevant, you can mention SmartContract.ai\'s capabilities for document analysis and contract intelligence.\n\nUser Question: "
  ++ question ++ "\n\nPlease provide a natural, conversational response:"

/-- The object answerQuestion resolves with.  `queryType` is `none` on the
greeting path, whose returned object has no such field.
`usedGenerationModel` records whether `ollama.generate` was invoked. -/
structure AnswerResult where
  answer : String
  context : String
  hasContext : Bool
  queryType : Option String
  usedGenerationModel : Bool
  deriving Repr, DecidableEq

/-- `answerQuestion(question, context)`.  `gen` is the external generation
backend (prompt to response text), `score` the external embedding similarity,
`rnd` the value driving the random greeting choice, and `store` the global
vector store read by step 4. -/
def answerQuestion (gen : String → String) (score : String → Passage → Int)
    (rnd : Nat) (question : String) (context : Option String)
    (store : Option (List Passage)) : AnswerResult :=
  if matchesGreeting question then
    { answer := greetingResponses.getD (rnd % greetingResponses.length) "",
      context := "Greeting response with SmartContract.ai context",
      hasContext := true,
      queryType := none,
      usedGenerationModel := false }
  else
    let isAppQuery := isApplicationQuery question
    let contextText := assembleContext score question context store
    let prompt :=
      if !contextText.isEmpty then
        if isAppQuery then appPrompt contextText question
        else docPrompt contextText question
      else generalPrompt question
    { answer := gen prompt,
      context :=
        if !contextText.isEmpty then
          if isAppQuery then "Used SmartContract.ai platform knowledge"
          else "Used document context"
        else "General AI response",
      hasContext := !contextText.isEmpty,
      queryType := some
        (if isAppQuery then "platform"
         else if !contextText.isEmpty then "document" else "general"),
      usedGenerationModel := true }

/-! ## OCR and enhanced OCR (ollamaService.js) -/

/-- The cleanup of `extractTextFromImage`: collapse repeated newline groups,
collapse whitespace runs to single spaces, trim. -/
def cleanOcrText (text : String) : String :=
  jsTrim (collapseWs (replaceNlRuns text))

/-- `extractTextFromImage` over the external OCR engine's outcome: cleaned
text on success, a wrapped `OCR failed` error on engine failure. -/
def extractTextFromImage (ocrEngine : Except String String) : Except String String :=
  match ocrEngine with
  | .ok text => .ok (cleanOcrText text)
  | .error e => .error ("OCR failed: " ++ e)

/-- The enhancement prompt of `enhancedOCR`. -/
def ocrEnhancePrompt (rawText : String) : String :=
  "You are an expert at cleaning up and enhancing OCR-extracted text. Please:\n\n1. Fix common OCR errors (character misrecognition, spacing issues, etc.)\n2. Improve formatting and structure\n3. Correct obvious spelling and grammar errors\n4. Maintain the original meaning and content\n\nOriginal OCR text:\n"
  ++ rawText
  ++ "\n\nPlease provide:\n1. CLEANED_TEXT: The corrected and formatted text\n2. SUMMARY: A brief summary of what the document appears to be about"

/-- Case-insensitive `idxAfterFirst` (character-wise lowering preserves
length, so the index transfers to the original string). -/
def idxAfterFirstCI (s pat : String) : Option Nat :=
  idxAfterFirst (lowerStr s) (lowerStr pat)

/-- Case-insensitive `idxOfFirst`. -/
def idxOfFirstCI (s pat : String) : Option Nat :=
  idxOfFirst (lowerStr s) (lowerStr pat)

/-- The `CLEANED_TEXT` extraction
(`/CLEANED_TEXT:?\s*([\s\S]*?)(?=SUMMARY:|$)/i`): after the first
occurrence of the marker, an optional colon and whitespace, capture lazily up
to the first `SUMMARY:` or the end; fall back to the raw text when the marker
is absent. -/
def parseCleaned (content raw : String) : String :=
  match idxAfterFirstCI content "cleaned_text" with
  | none => raw
  | some i =>
    let rest := strDrop content i
    let rest := if strStartsWith rest ":" then strDrop rest 1 else rest
    let rest := String.mk (rest.toList.dropWhile isJsWs)
    match idxOfFirstCI rest "summary:" with
    | none => jsTrim rest
    | some j => jsTrim (strTake rest j)

/-- The `SUMMARY` extraction (`/SUMMARY:?\s*([\s\S]*?)$/i`): everything after
the first occurrence of the marker, an optional colon and whitespace;
`Document processed` when absent. -/
def parseSummary (content : String) : String :=
  match idxAfterFirstCI content "summary" with
  | none => "Document processed"
  | some i =>
    let rest := strDrop content i
    let rest := if strStartsWith rest ":" then strDrop rest 1 else rest
    jsTrim (String.mk (rest.toList.dropWhile isJsWs))

/-- `calculateTextQuality`: the heuristic confidence score in [0,1]
(JavaScript floating point modeled as exact rationals; no claim depends on the
value). -/
def calculateTextQuality (rawText enhancedText : String) : Rat :=
  if rawText.isEmpty || enhancedText.isEmpty then 0
  else
    let rawWords : Rat := (splitWsCount rawText : Nat)
    let enhancedWords : Rat := (splitWsCount enhancedText : Nat)
    let lengthRatio := min (enhancedWords / rawWords) 2
    let hasProperSentences := strContains enhancedText "." && strContains enhancedText " "
    let hasReasonableLength := enhancedText.length > 20
    let score : Rat := 1/2
    let score := if hasProperSentences then score + 3/10 else score
    let score := if hasReasonableLength then score + 1/5 else score
    min (score * lengthRatio) 1

/-- The object `enhancedOCR` resolves with.  `confidence` is absent on the
short-circuit and failure paths (the JavaScript object has no such field
there); `errorNote` is the `error` field of the failure path. -/
structure OcrEnhanced where
  rawText : String
  enhancedText : Option String
  summary : String
  confidence : Option Rat
  errorNote : Option String
  deriving Repr, DecidableEq

/-- `enhancedOCR`: raw OCR, the near-empty short-circuit, the enhancement call
and its marker parsing.  An OCR-engine failure propagates (the catch block
re-runs `extractTextFromImage`, which fails again with the same error); an
enhancement failure is caught and degrades to the raw text with an error
note. -/
def enhancedOCR (ocrEngine : Except String String)
    (genE : String → Except String String) : Except String OcrEnhanced :=
  match extractTextFromImage ocrEngine with
  | .error e => .error e
  | .ok rawText =>
    if rawText.isEmpty || (jsTrim rawText).length < 10 then
      .ok { rawText := rawText, enhancedText := some rawText,
            summary := "No significant text found", confidence := none,
            errorNote := none }
    else
      match genE (ocrEnhancePrompt rawText) with
      | .ok content =>
        let enhancedText := parseCleaned content rawText
        .ok { rawText := rawText, enhancedText := some enhancedText,
              summary := parseSummary content,
              confidence := some (calculateTextQuality rawText enhancedText),
              errorNote := none }
      | .error e =>
        .ok { rawText := rawText, enhancedText := none,
              summary := "Enhancement failed", confidence := none,
              errorNote := some e }

/-! ## Upload filtering, text extraction and document processing
(routes/contracts.js) -/

/-- The multer fileFilter allowlist. -/
def allowedTypes : List String :=
  ["application/pdf", "image/jpeg", "image/png", "image/tiff", "text/plain",
   "application/msword",
   "application/vnd.openxmlformats-officedocument.wordprocessingml.document"]

/-- Whether the upload fileFilter accepts the declared media type. -/
def fileFilterAccepts (mimetype : String) : Bool :=
  allowedTypes.contains mimetype

/-- The fileFilter rejection message. -/
def fileFilterError (mimetype : String) : String :=
  "File type " ++ mimetype ++ " not supported. Allowed types: "
  ++ joinWith ", " allowedTypes

/-- `extractTextFromFile`: dispatch on the declared media type — pdf parser,
enhanced OCR (enhanced text when truthy, else raw text), or utf-8 decode for
everything else; failures are wrapped with the file name. -/
def extractTextFromFile (mimetype fileName : String)
    (pdfParse ocrEngine : Except String String)
    (genE : String → Except String String) (utf8Content : String) :
    Except String String :=
  if mimetype == "application/pdf" then
    match pdfParse with
    | .ok t => .ok t
    | .error e => .error ("Failed to extract text from " ++ fileName ++ ": " ++ e)
  else if strStartsWith mimetype "image/" then
    match enhancedOCR ocrEngine genE with
    | .ok r =>
      .ok (match r.enhancedText with
           | some e => if e.isEmpty then r.rawText else e
           | none => r.rawText)
    | .error e => .error ("Failed to extract text from " ++ fileName ++ ": " ++ e)
  else .ok utf8Content

/-- The upload pipeline an incoming file actually passes: the multer
fileFilter first, then `extractTextFromFile` (the extractor is reachable only
behind the allowlist). -/
def uploadAndExtract (mimetype fileName : String)
    (pdfParse ocrEngine : Except String String)
    (genE : String → Except String String) (utf8Content : String) :
    Except String String :=
  if fileFilterAccepts mimetype then
    extractTextFromFile mimetype fileName pdfParse ocrEngine genE utf8Content
  else .error (fileFilterError mimetype)

/-- The terminal status `processContractAsync` writes back. -/
inductive ProcResult where
  | completed (content analysis : String)
  | failed (errorMessage : String)
  deriving Repr, DecidableEq

/-- The short-extraction error message of `processContractAsync`. -/
def insufficientContentMsg : String :=
  "Could not extract sufficient text from document"

/-- The body of `processContractAsync` once admitted: extract text (the model
warmup cannot fail the job), reject short extractions, then run the fast
analysis and the isolated embedding insert in parallel and record the terminal
status.  `analysisResult` and `embedError` stand for the outcomes of the two
external calls; the user store is mutated exactly when the embedding insert
succeeded. -/
def processContractBody (splitText : String → List String) (st : OllamaState)
    (contractId fileName mimetype userId : String)
    (pdfParse ocrEngine : Except String String)
    (genE : String → Except String String) (utf8Content : String)
    (analysisResult : Except String String) (embedError : Option String) :
    OllamaState × ProcResult :=
  match extractTextFromFile mimetype fileName pdfParse ocrEngine genE utf8Content with
  | .error e => (st, .failed e)
  | .ok extractedText =>
    if extractedText.isEmpty || (jsTrim extractedText).length < 50 then
      (st, .failed insufficientContentMsg)
    else
      let doc : Passage :=
        { content := extractedText, contractId := contractId,
          fileName := fileName, title := fileName, userId := userId }
      let st2 :=
        if embedError.isNone then addDocumentsWithIsolation splitText st [doc] userId
        else st
      match analysisResult, embedError with
      | .ok analysis, none => (st2, .completed extractedText analysis)
      | .error e, _ => (st2, .failed e)
      | .ok _, some e => (st2, .failed e)

/-! ## The delete route (routes/contracts.js) -/

/-- The methods OllamaService actually declares (ollamaService.js). -/
def ollamaServiceMethodNames : List String :=
  ["checkHealth", "ensureModels", "extractTextFromImage", "enhancedOCR",
   "calculateTextQuality", "createVectorStore", "addDocuments",
   "similaritySearch", "isApplicationQuery", "getRelevantAppKnowledge",
   "answerQuestion", "analyzeDocument", "loadUserDocuments",
   "getVectorStoreStats", "warmupModels", "analyzeDocumentFast",
   "addDocumentsWithIsolation", "getUserVectorStore", "cleanupUserVectorStore",
   "getProcessingStats", "getPlatformInfo", "getFrequentlyAskedQuestions",
   "getOptimizationStatus"]

/-- The delete route's dynamic call `ollamaService.clearDocumentStore(id)`:
OllamaService declares no such method, so the property access yields undefined
and the call throws a TypeError (the state-preserving success arm is
unreachable). -/
def invokeClearDocumentStore (st : OllamaState) (contractId : String) :
    Except String OllamaState :=
  if ollamaServiceMethodNames.contains "clearDocumentStore" then .ok st
  else .error "ollamaService.clearDocumentStore is not a function"

/-- The outcome of `DELETE /api/contracts/:id`. -/
structure DeleteOutcome where
  httpStatus : Nat
  db : List Contract
  svc : OllamaState
  deriving Repr, DecidableEq

/-- The delete route: 404 when the contract is not the caller's; otherwise
delete the row (chat sessions cascade in the database), attempt the vector
cleanup call inside a try/catch whose failure is only logged, and respond
200. -/
def deleteContractRoute (st : OllamaState) (db : List Contract)
    (contractId userId : String) : DeleteOutcome :=
  match db.find? (fun c => c.id == contractId && c.userId == userId) with
  | none => { httpStatus := 404, db := db, svc := st }
  | some _ =>
    let db2 := db.filter fun c => !(c.id == contractId && c.userId == userId)
    let st2 :=
      match invokeClearDocumentStore st contractId with
      | .ok s => s
      | .error _ => st
    { httpStatus := 200, db := db2, svc := st2 }

/-! ## The reprocess route (routes/contracts.js) -/

/-- The observable effects of `POST /api/contracts/:id/reprocess`. -/
inductive RouteEffect where
  | updateStatus (contractId status : String)
  | startPipeline (contractId : String)
  | respond (code : Nat)
  deriving Repr, DecidableEq

/-- The reprocess route: 404 when not found, 400 unless status is failed,
otherwise set the status to processing and respond — the handler never
re-enters the processing pipeline (its own comment: in a full implementation
you would re-trigger the processing; for now, we just update the status). -/
def reprocessRoute (found : Option Contract) : List RouteEffect :=
  match found with
  | none => [.respond 404]
  | some c =>
    if c.status != "failed" then [.respond 400]
    else [.updateStatus c.id "processing", .respond 200]

/-! ## Concurrency admission control (routes/contracts.js)

`processContractAsync` checks `processingQueue.get(userId) || 0` against
`MAX_CONCURRENT_PER_USER` and `globalProcessingCount` against
`MAX_GLOBAL_CONCURRENT`; hitting either cap awaits a fixed backoff and
re-enters the same check, and only the no-cap-hit path increments both
counters with no intervening await, so check-and-increment is atomic on the
event loop.  The `finally` block decrements with the
`get(userId) || 1` / delete-at-one logic of the source.  The model is a
transition system whose actions are these atomic sections; a deferred job
stays pending (the recursive retry never drops it). -/

/-- One upload job. -/
structure Job where
  jobId : Nat
  userId : String
  deriving Repr, DecidableEq

/-- MAX_CONCURRENT_PER_USER. -/
def MAX_CONCURRENT_PER_USER : Nat := 3

/-- MAX_GLOBAL_CONCURRENT. -/
def MAX_GLOBAL_CONCURRENT : Nat := 10

/-- The coordinator's shared state: jobs not yet admitted (deferred or never
scheduled), jobs actively processing, finished jobs, and the two counters of
the source. -/
structure CoordState where
  pending : List Job
  active : List Job
  done : List Job
  processingQueue : List (String × Nat)
  globalProcessingCount : Nat
  deriving Repr, DecidableEq

/-- `processingQueue.get(userId) || 0`. -/
def queueGet (q : List (String × Nat)) (u : String) : Nat :=
  (q.lookup u).getD 0

/-- `processingQueue.get(userId) || 1` (the finally block's read). -/
def queueGetOr1 (q : List (String × Nat)) (u : String) : Nat :=
  match q.lookup u with
  | none => 1
  | some n => if n == 0 then 1 else n

/-- The schedulable atomic sections. -/
inductive CoordAction where
  | acquire (j : Job)
  | defer (j : Job)
  | finish (j : Job)
  deriving Repr, DecidableEq

/-- One atomic section.  `acquire` is the successful check-and-increment (a
no-op unless the job is pending and both caps have room — under a cap the
source instead takes the `defer` branch); `defer` is the backoff branch, which
leaves the state unchanged and the job pending; `finish` is the finally-block
decrement for an active job. -/
def coordStep (s : CoordState) : CoordAction → CoordState
  | .acquire j =>
    if s.pending.contains j &&
       decide (queueGet s.processingQueue j.userId < MAX_CONCURRENT_PER_USER) &&
       decide (s.globalProcessingCount < MAX_GLOBAL_CONCURRENT) then
      { pending := s.pending.erase j,
        active := j :: s.active,
        done := s.done,
        processingQueue :=
          mapSet s.processingQueue j.userId (queueGet s.processingQueue j.userId + 1),
        globalProcessingCount := s.globalProcessingCount + 1 }
    else s
  | .defer _ => s
  | .finish j =>
    if s.active.contains j then
      { pending := s.pending,
        active := s.active.erase j,
        done := j :: s.done,
        processingQueue :=
          let cur := queueGetOr1 s.processingQueue j.userId
          if cur ≤ 1 then mapDelete s.processingQueue j.userId
          else mapSet s.processingQueue j.userId (cur - 1),
        globalProcessingCount := Nat.max 0 (s.globalProcessingCount - 1) }
    else s

/-- The state at process start with the submitted jobs. -/
def initCoord (jobs : List Job) : CoordState :=
  { pending := jobs, active := [], done := [],
    processingQueue := [], globalProcessingCount := 0 }

/-- Run a schedule of atomic sections. -/
def runCoord (s : CoordState) (acts : List CoordAction) : CoordState :=
  acts.foldl coordStep s

/-- The number of the user's actively processing jobs. -/
def activeOf (s : CoordState) (u : String) : Nat :=
  (s.active.filter fun j => j.userId == u).length

/-! ## The chat query route (routes/chat.js) -/

/-- The fixed demo user id of `optionalAuth`. -/
def demoUserId : String := "demo-user-123"

/-- `optionalAuth`: a missing token falls back to the demo user, a token that
verifies yields that user, and a token that fails verification falls back to
the demo user; the middleware always continues, never rejecting the
request. -/
def optionalAuth (token : Option String) (verify : String → Option String) : String :=
  match token with
  | none => demoUserId
  | some t =>
    match verify t with
    | some uid => uid
    | none => demoUserId

/-- One built-in demo contract of the query route. -/
structure DemoContract where
  content : String
  fileName : String
  status : String
  deriving Repr, DecidableEq

/-- The demo employment agreement (`employment-001`). -/
def demoEmployment : DemoContract :=
  { content := "EMPLOYMENT AGREEMENT\n\nThis Employment Agreement is entered into between TechCorp Inc. and John Smith.\n\nPosition: Senior Software Engineer\nSalary: $95,000 annually\nBenefits: Health insurance, 401k matching, 3 weeks PTO\nTermination: Either party may terminate with 2 weeks notice\nNon-compete: 6 months in same industry within 50 miles\nConfidentiality: Employee agrees to protect company trade secrets",
    fileName := "Employment_Agreement_TechCorp.pdf",
    status := "completed" }

/-- The demo lease agreement (`lease-002`). -/
def demoLease : DemoContract :=
  { content := "RESIDENTIAL LEASE AGREEMENT\n\nLandlord: ABC Property Management\nTenant: Jane Doe\nProperty: 123 Main St, Apt 4B\nRent: $1,800 per month\nSecurity Deposit: $3,600\nLease Term: 12 months starting January 1, 2024\nPet Policy: No pets allowed\nUtilities: Tenant responsible for electricity and internet\nMaintenance: Landlord responsible for major repairs",
    fileName := "Lease_Agreement_MainSt.pdf",
    status := "completed" }

/-- The demo contract table. -/
def demoContractsMap : List (String × DemoContract) :=
  [("employment-001", demoEmployment), ("lease-002", demoLease)]

/-- `demoContracts[contractId] || demoContracts['employment-001']`. -/
def lookupDemoContract (cid : String) : DemoContract :=
  (demoContractsMap.lookup cid).getD demoEmployment

/-- The general (no contractId) branch of the query route: fetch the user's
completed contracts; when some exist, load them into the global store and
answer with retrieval, falling back to a contract-list context when retrieval
produced none; else answer as general AI. -/
def generalQueryBranch (gen : String → String) (score : String → Passage → Int)
    (splitText : String → List String) (rnd : Nat) (st : OllamaState)
    (db : List Contract) (userId : String) (queryMessage : String) :
    OllamaState × AnswerResult :=
  let userContracts := userCompletedContracts db userId
  if userContracts.length > 0 then
    let st2 := (loadUserDocuments splitText st db userId).1
    let response := answerQuestion gen score rnd queryMessage none st2.vectorStore
    if !response.hasContext then
      let contractList := joinWith ", " (userContracts.map fun c =>
        if c.title.isEmpty then c.fileName else c.title)
      let contextualPrompt :=
        "I have uploaded the following contracts: " ++ contractList ++ ". " ++ queryMessage
      let recentContent := joinWith "\n\n---\n\n" ((userContracts.take 3).map fun c =>
        "Document: " ++ (if c.title.isEmpty then c.fileName else c.title)
        ++ "\nContent: " ++ strTake (c.content.getD "") 1000 ++ "...")
      (st2, answerQuestion gen score rnd contextualPrompt (some recentContent) st2.vectorStore)
    else (st2, response)
  else
    (st, answerQuestion gen score rnd queryMessage none st.vectorStore)

/-- The outcomes of `POST /api/chat/query`.  `unauthorized` is in the type so
that its absence can be stated; the handler has no branch producing it. -/
inductive ChatQueryOutcome where
  | badRequest
  | unauthorized
  | notFound
  | stillProcessing (status : String)
  | answered (userId : String) (response : AnswerResult)
  deriving Repr, DecidableEq

/-- The query route: optionalAuth, the required query message, then the
contractId branch (demo table for the demo user, the caller's completed row
otherwise) or the general branch. -/
def chatQueryRoute (gen : String → String) (score : String → Passage → Int)
    (splitText : String → List String) (rnd : Nat)
    (token : Option String) (verify : String → Option String)
    (st : OllamaState) (db : List Contract)
    (contractId : Option String) (queryMessage : Option String) :
    OllamaState × ChatQueryOutcome :=
  let userId := optionalAuth token verify
  match queryMessage with
  | none => (st, .badRequest)
  | some q =>
    if q.isEmpty then (st, .badRequest)
    else
      match contractId with
      | some cid =>
        if userId == demoUserId then
          let contract := lookupDemoContract cid
          (st, .answered userId
            (answerQuestion gen score rnd q (some contract.content) st.vectorStore))
        else
          match db.find? (fun c => c.id == cid && c.userId == userId) with
          | none => (st, .notFound)
          | some c =>
            if c.status != "completed" then (st, .stillProcessing c.status)
            else
              (st, .answered userId
                (answerQuestion gen score rnd q c.content st.vectorStore))
      | none =>
        let r := generalQueryBranch gen score splitText rnd st db userId q
        (r.1, .answered userId r.2)

/-! ## Supporting lemmas -/

theorem mem_insertDesc {score : Passage → Int} {q p : Passage} :
    ∀ {l : List Passage}, p ∈ insertDesc score q l → p = q ∨ p ∈ l := by
  intro l
  induction l with
  | nil => intro h; simpa [insertDesc] using h
  | cons x xs ih =>
    intro h
    by_cases hc : score x < score q
    · rw [insertDesc, if_pos hc] at h
      rcases List.mem_cons.mp h with h | h
      · exact Or.inl h
      · exact Or.inr h
    · rw [insertDesc, if_neg hc] at h
      rcases List.mem_cons.mp h with h | h
      · exact Or.inr (by simp [h])
      · rcases ih h with h | h
        · exact Or.inl h
        · exact Or.inr (List.mem_cons_of_mem _ h)

theorem mem_sortDesc {score : Passage → Int} {p : Passage} :
    ∀ {l : List Passage}, p ∈ sortDesc score l → p ∈ l := by
  intro l
  induction l with
  | nil => intro h; simpa [sortDesc] using h
  | cons x xs ih =>
    intro h
    rw [sortDesc] at h
    rcases mem_insertDesc h with h | h
    · simp [h]
    · exact List.mem_cons_of_mem x (ih h)

theorem mem_topKPassages {score : Passage → Int} {ps : List Passage} {k : Nat}
    {p : Passage} (h : p ∈ topKPassages score ps k) : p ∈ ps :=
  mem_sortDesc (List.mem_of_mem_take h)

theorem userId_of_mem_splitDocuments {splitText : String → List String}
    {docs : List Passage} {u : String} (hd : ∀ d ∈ docs, d.userId = u)
    {p : Passage} (hp : p ∈ splitDocuments splitText docs) : p.userId = u := by
  simp only [splitDocuments, List.mem_flatMap, List.mem_map] at hp
  obtain ⟨d, hdmem, c, -, rfl⟩ := hp
  exact hd d hdmem

/-- Lookup after setting the same key. -/
theorem lookup_mapSet_self {α : Type} (q : List (String × α)) (u : String) (v : α) :
    (mapSet q u v).lookup u = some v := by
  induction q with
  | nil => simp [mapSet, List.lookup]
  | cons kv rest ih =>
    obtain ⟨k, w⟩ := kv
    by_cases hk : k = u
    · subst hk; simp [mapSet, List.lookup]
    · rw [mapSet, if_neg (show ¬ (k == u) = true by simpa using hk)]
      simp only [List.lookup, show (u == k) = false by simpa using Ne.symm hk]
      exact ih

/-- Lookup after setting a different key. -/
theorem lookup_mapSet_ne {α : Type} (q : List (String × α)) (u w : String) (v : α)
    (h : w ≠ u) : (mapSet q u v).lookup w = q.lookup w := by
  induction q with
  | nil => simp [mapSet, List.lookup, show (w == u) = false by simpa using h]
  | cons kv rest ih =>
    obtain ⟨k, x⟩ := kv
    by_cases hk : k = u
    · subst hk
      rw [mapSet, if_pos (by simp)]
      simp only [List.lookup, show (w == k) = false by simpa using h]
    · rw [mapSet, if_neg (show ¬ (k == u) = true by simpa using hk)]
      by_cases hw : w = k
      · simp [List.lookup, hw]
      · simp only [List.lookup, show (w == k) = false by simpa using hw]
        exact ih

/-- Inner step of `lookup_mapDelete_self`: a key absent from a map is not
found. -/
theorem lookup_eq_none_of_not_mem_keys {α : Type} (q : List (String × α))
    (u : String) (h : u ∉ q.map Prod.fst) : q.lookup u = none := by
  induction q with
  | nil => simp [List.lookup]
  | cons kv rest ih =>
    obtain ⟨k, x⟩ := kv
    simp only [List.map_cons, List.mem_cons] at h
    push_neg at h
    simp only [List.lookup, show (u == k) = false by simpa using h.1]
    exact ih h.2

/-- Lookup after deleting a key whose occurrence is unique. -/
theorem lookup_mapDelete_self {α : Type} (q : List (String × α)) (u : String)
    (hnd : (q.map Prod.fst).Nodup) : (mapDelete q u).lookup u = none := by
  induction q with
  | nil => simp [mapDelete, List.lookup]
  | cons kv rest ih =>
    obtain ⟨k, x⟩ := kv
    simp only [List.map_cons, List.nodup_cons] at hnd
    by_cases hk : k = u
    · subst hk
      rw [mapDelete, if_pos (by simp)]
      exact lookup_eq_none_of_not_mem_keys rest k hnd.1
    · rw [mapDelete, if_neg (show ¬ (k == u) = true by simpa using hk)]
      simp only [List.lookup, show (u == k) = false by simpa using Ne.symm hk]
      exact ih hnd.2

/-- Lookup after deleting a different key. -/
theorem lookup_mapDelete_ne {α : Type} (q : List (String × α)) (u w : String)
    (h : w ≠ u) : (mapDelete q u).lookup w = q.lookup w := by
  induction q with
  | nil => simp [mapDelete]
  | cons kv rest ih =>
    obtain ⟨k, x⟩ := kv
    by_cases hk : k = u
    · subst hk
      rw [mapDelete, if_pos (by simp)]
      simp only [List.lookup, show (w == k) = false by simpa using h]
    · rw [mapDelete, if_neg (show ¬ (k == u) = true by simpa using hk)]
      by_cases hw : w = k
      · simp [List.lookup, hw]
      · simp only [List.lookup, show (w == k) = false by simpa using hw]
        exact ih

/-- A key of `mapSet q u v` is a key of `q` or is `u`. -/
theorem mem_map_fst_mapSet {α : Type} {q : List (String × α)} {u k : String} {v : α}
    (h : k ∈ (mapSet q u v).map Prod.fst) : k ∈ q.map Prod.fst ∨ k = u := by
  induction q with
  | nil =>
    rw [mapSet] at h
    simp only [List.map_cons, List.map_nil, List.mem_singleton] at h
    exact Or.inr h
  | cons kv rest ih =>
    obtain ⟨k0, x⟩ := kv
    by_cases hk : k0 = u
    · subst hk
      rw [mapSet, if_pos (by simp)] at h
      simp only [List.map_cons, List.mem_cons] at h
      rcases h with h | h
      · exact Or.inl (by simp [h])
      · exact Or.inl (by simp [h])
    · rw [mapSet, if_neg (show ¬ (k0 == u) = true by simpa using hk)] at h
      simp only [List.map_cons, List.mem_cons] at h
      rcases h with h | h
      · exact Or.inl (by simp [h])
      · rcases ih h with h | h
        · exact Or.inl (by simp [h])
        · exact Or.inr h

/-- `mapSet` keeps the keys duplicate-free. -/
theorem nodup_mapSet {α : Type} (q : List (String × α)) (u : String) (v : α)
    (hnd : (q.map Prod.fst).Nodup) : ((mapSet q u v).map Prod.fst).Nodup := by
  induction q with
  | nil => simp [mapSet]
  | cons kv rest ih =>
    obtain ⟨k, x⟩ := kv
    simp only [List.map_cons, List.nodup_cons] at hnd
    by_cases hk : k = u
    · subst hk
      rw [mapSet, if_pos (by simp)]
      simp only [List.map_cons, List.nodup_cons]
      exact hnd
    · rw [mapSet, if_neg (show ¬ (k == u) = true by simpa using hk)]
      simp only [List.map_cons, List.nodup_cons]
      refine ⟨fun hmem => ?_, ih hnd.2⟩
      rcases mem_map_fst_mapSet hmem with h | h
      · exact hnd.1 h
      · exact hk h

/-- A key of `mapDelete q u` is a key of `q`. -/
theorem mem_map_fst_mapDelete {α : Type} {q : List (String × α)} {u k : String}
    (h : k ∈ (mapDelete q u).map Prod.fst) : k ∈ q.map Prod.fst := by
  induction q with
  | nil => simpa [mapDelete] using h
  | cons kv rest ih =>
    obtain ⟨k0, x⟩ := kv
    by_cases hk : k0 = u
    · subst hk
      rw [mapDelete, if_pos (by simp)] at h
      exact List.mem_cons_of_mem _ h
    · rw [mapDelete, if_neg (show ¬ (k0 == u) = true by simpa using hk)] at h
      simp only [List.map_cons, List.mem_cons] at h
      rcases h with h | h
      · simp [h]
      · exact List.mem_cons_of_mem _ (ih h)

/-- `mapDelete` keeps the keys duplicate-free. -/
theorem nodup_mapDelete {α : Type} (q : List (String × α)) (u : String)
    (hnd : (q.map Prod.fst).Nodup) : ((mapDelete q u).map Prod.fst).Nodup := by
  induction q with
  | nil => simpa [mapDelete] using hnd
  | cons kv rest ih =>
    obtain ⟨k, x⟩ := kv
    simp only [List.map_cons, List.nodup_cons] at hnd
    by_cases hk : k = u
    · subst hk
      rw [mapDelete, if_pos (by simp)]
      exact hnd.2
    · rw [mapDelete, if_neg (show ¬ (k == u) = true by simpa using hk)]
      simp only [List.map_cons, List.nodup_cons]
      refine ⟨fun hmem => ?_, ih hnd.2⟩
      exact hnd.1 (mem_map_fst_mapDelete hmem)

/-! ## The coordinator invariant -/

/-- The invariant of the admission-control state: counter keys are unique, the
per-user counters and the global counter agree with the active job list, both
caps hold, and the submitted jobs are exactly the pending, active and done
jobs (no job is ever dropped). -/
def CoordInv (jobs : List Job) (s : CoordState) : Prop :=
  (s.processingQueue.map Prod.fst).Nodup ∧
  (∀ u, queueGet s.processingQueue u = activeOf s u) ∧
  s.globalProcessingCount = s.active.length ∧
  (∀ u, activeOf s u ≤ MAX_CONCURRENT_PER_USER) ∧
  s.active.length ≤ MAX_GLOBAL_CONCURRENT ∧
  List.Perm (s.pending ++ s.active ++ s.done) jobs

theorem activeOf_filter_erase (active : List Job) (j : Job) (hj : j ∈ active)
    (u : String) :
    ((active.erase j).filter (fun x => x.userId == u)).length =
      (active.filter (fun x => x.userId == u)).length -
        (if j.userId == u then 1 else 0) := by
  have hperm := (List.perm_cons_erase hj).filter (fun x => x.userId == u)
  have hlen := hperm.length_eq
  rw [List.filter_cons] at hlen
  by_cases hja : (j.userId == u) = true
  · rw [if_pos hja] at hlen
    simp only [List.length_cons] at hlen
    simp [hlen, hja]
  · rw [if_neg hja] at hlen
    simp [hlen, hja]

theorem one_le_activeOf_of_mem (active : List Job) (j : Job) (hj : j ∈ active) :
    1 ≤ (active.filter (fun x => x.userId == j.userId)).length :=
  List.length_pos_of_mem (List.mem_filter.mpr ⟨hj, by simp⟩)

theorem coordInv_init (jobs : List Job) : CoordInv jobs (initCoord jobs) := by
  refine ⟨by simp [initCoord], ?_, by simp [initCoord], ?_, by simp [initCoord, MAX_GLOBAL_CONCURRENT], by simp [initCoord]⟩
  · intro u; simp [initCoord, queueGet, activeOf, List.lookup]
  · intro u; simp [initCoord, activeOf]

theorem coordInv_step (jobs : List Job) (s : CoordState) (a : CoordAction)
    (h : CoordInv jobs s) : CoordInv jobs (coordStep s a) := by
  obtain ⟨hnd, hq, hg, hcapU, hcapG, hperm⟩ := h
  cases a with
  | defer j => exact ⟨hnd, hq, hg, hcapU, hcapG, hperm⟩
  | acquire j =>
    rw [coordStep]
    by_cases hcond : (s.pending.contains j &&
        decide (queueGet s.processingQueue j.userId < MAX_CONCURRENT_PER_USER) &&
        decide (s.globalProcessingCount < MAX_GLOBAL_CONCURRENT)) = true
    · rw [if_pos hcond]
      simp only [Bool.and_eq_true, decide_eq_true_eq] at hcond
      obtain ⟨⟨hjmem0, hcapu⟩, hcapg⟩ := hcond
      have hjmem : j ∈ s.pending := by simpa using hjmem0
      refine ⟨nodup_mapSet _ _ _ hnd, ?_, ?_, ?_, ?_, ?_⟩
      · intro u
        by_cases hu : u = j.userId
        · subst hu
          simp only [queueGet, lookup_mapSet_self, Option.getD_some, activeOf,
            List.filter_cons]
          rw [if_pos (by simp)]
          simp only [List.length_cons]
          have h1 := hq j.userId
          simp only [queueGet, activeOf] at h1
          omega
        · simp only [queueGet, lookup_mapSet_ne _ _ _ _ hu, activeOf,
            List.filter_cons]
          rw [if_neg (by simpa using fun hcontra => hu hcontra.symm)]
          exact hq u
      · simp [hg]
      · intro u
        by_cases hu : u = j.userId
        · subst hu
          simp only [activeOf, List.filter_cons]
          rw [if_pos (by simp)]
          simp only [List.length_cons]
          have h1 := hq j.userId
          simp only [activeOf] at h1
          omega
        · simp only [activeOf, List.filter_cons]
          rw [if_neg (by simpa using fun hcontra => hu hcontra.symm)]
          exact hcapU u
      · simp only [List.length_cons]
        exact Nat.succ_le_of_lt (hg ▸ hcapg)
      · refine (List.perm_iff_count.mpr ?_).trans hperm
        intro x
        by_cases hx : x = j
        · subst hx
          have hcount : 0 < List.count x s.pending :=
            List.count_pos_iff.mpr hjmem
          simp only [List.count_append, List.count_cons_self,
            List.count_erase_self]
          omega
        · simp only [List.count_append, List.count_cons_of_ne hx,
            List.count_erase_of_ne hx]
    · rw [if_neg hcond]
      exact ⟨hnd, hq, hg, hcapU, hcapG, hperm⟩
  | finish j =>
    rw [coordStep]
    by_cases hcond : s.active.contains j = true
    · rw [if_pos hcond]
      have hjmem : j ∈ s.active := by simpa using hcond
      have hone : 1 ≤ activeOf s j.userId := one_le_activeOf_of_mem _ _ hjmem
      have hlk : s.processingQueue.lookup j.userId = some (activeOf s j.userId) := by
        have h1 := hq j.userId
        cases hl : s.processingQueue.lookup j.userId with
        | none =>
          rw [queueGet, hl] at h1
          simp only [Option.getD_none] at h1
          omega
        | some m =>
          rw [queueGet, hl] at h1
          simp only [Option.getD_some] at h1
          rw [h1]
      have hcur : queueGetOr1 s.processingQueue j.userId = activeOf s j.userId := by
        rw [queueGetOr1, hlk]
        have hne : (activeOf s j.userId == 0) = false := by
          simp only [beq_eq_false_iff_ne, ne_eq]
          omega
        simp [hne]
      refine ⟨?_, ?_, ?_, ?_, ?_, ?_⟩
      · by_cases hle : queueGetOr1 s.processingQueue j.userId ≤ 1
        · rw [if_pos hle]; exact nodup_mapDelete _ _ hnd
        · rw [if_neg hle]; exact nodup_mapSet _ _ _ hnd
      · intro u
        by_cases hu : u = j.userId
        · subst hu
          by_cases hle : queueGetOr1 s.processingQueue j.userId ≤ 1
          · have hone1 : activeOf s j.userId = 1 := by rw [hcur] at hle; omega
            simp only [queueGet]
            rw [if_pos hle, lookup_mapDelete_self _ _ hnd]
            simp only [Option.getD_none, activeOf]
            rw [activeOf_filter_erase _ _ hjmem, if_pos (by simp)]
            simp only [activeOf] at hone1
            omega
          · simp only [queueGet]
            rw [if_neg hle, lookup_mapSet_self]
            simp only [Option.getD_some, activeOf]
            rw [activeOf_filter_erase _ _ hjmem, if_pos (by simp)]
            rw [hcur]
            simp only [activeOf]
        · by_cases hle : queueGetOr1 s.processingQueue j.userId ≤ 1
          · simp only [queueGet]
            rw [if_pos hle, lookup_mapDelete_ne _ _ _ hu]
            have h1 := hq u
            simp only [queueGet, activeOf] at h1
            simp only [activeOf]
            rw [activeOf_filter_erase _ _ hjmem,
              if_neg (by simpa using fun hcontra => hu hcontra.symm)]
            omega
          · simp only [queueGet]
            rw [if_neg hle, lookup_mapSet_ne _ _ _ _ hu]
            have h1 := hq u
            simp only [queueGet, activeOf] at h1
            simp only [activeOf]
            rw [activeOf_filter_erase _ _ hjmem,
              if_neg (by simpa using fun hcontra => hu hcontra.symm)]
            omega
      · show Nat.max 0 (s.globalProcessingCount - 1) = (s.active.erase j).length
        have hmax : Nat.max 0 (s.globalProcessingCount - 1) =
            s.globalProcessingCount - 1 := by
          simp [Nat.max_def]
        rw [hmax]
        simp only [List.length_erase_of_mem hjmem, hg]
      · intro u
        have hsub : List.Sublist ((s.active.erase j).filter (fun x => x.userId == u))
            (s.active.filter (fun x => x.userId == u)) :=
          (List.erase_sublist j s.active).filter _
        simp only [activeOf]
        exact Nat.le_trans hsub.length_le (hcapU u)
      · exact Nat.le_trans (List.erase_sublist j s.active).length_le hcapG
      · refine (List.perm_iff_count.mpr ?_).trans hperm
        intro x
        by_cases hx : x = j
        · subst hx
          have hcount : 0 < List.count x s.active :=
            List.count_pos_iff.mpr hjmem
          simp only [List.count_append, List.count_cons_self,
            List.count_erase_self]
          omega
        · simp only [List.count_append, List.count_cons_of_ne hx,
            List.count_erase_of_ne hx]
    · rw [if_neg (by simpa using hcond)]
      exact ⟨hnd, hq, hg, hcapU, hcapG, hperm⟩

theorem coordInv_run (jobs : List Job) (acts : List CoordAction) :
    ∀ s, CoordInv jobs s → CoordInv jobs (runCoord s acts) := by
  induction acts with
  | nil => intro s h; exact h
  | cons a rest ih =>
    intro s h
    exact ih _ (coordInv_step jobs s a h)

theorem bnot_isEmpty_iff (s : String) : ((!s.isEmpty) = true) ↔ s ≠ "" := by
  cases he : s.isEmpty
  · constructor
    · intro _ hc
      subst hc
      exact absurd he (by decide)
    · intro _
      rfl
  · constructor
    · intro h
      exact absurd h (by simp)
    · intro h
      exact absurd ((String.isEmpty_iff s).mp he) h

/-! ## The claims -/

/-- C2 (amended theorem): for every question that does not hit the greeting
short-circuit, answerQuestion's `hasContext` flag is true exactly when the
context string assembled by steps 2-4 (explicit context, platform knowledge or
retrieval, the `assembleContext` of this file) is non-empty, and `queryType`
is one of platform, document, general.  The greeting path, excluded here, is
the counterexample to the claim as stated. -/
theorem C2_hasContext_iff_nongreeting (gen : String → String)
    (score : String → Passage → Int) (rnd : Nat) (question : String)
    (context : Option String) (store : Option (List Passage))
    (hng : matchesGreeting question = false) :
    ((answerQuestion gen score rnd question context store).hasContext = true ↔
      assembleContext score question context store ≠ "") ∧
    (answerQuestion gen score rnd question context store).queryType ∈
      [some "platform", some "document", some "general"] := by
  rw [answerQuestion, if_neg (by simp [hng])]
  refine ⟨bnot_isEmpty_iff _, ?_⟩
  by_cases happ : isApplicationQuery question = true
  · simp [happ]
  · by_cases hctx : (assembleContext score question context store).isEmpty
    · simp [happ, hctx]
    · simp [happ, hctx]

/-- Witness for C2 at a non-greeting question with an explicit context. -/
theorem C2_hasContext_iff_nongreeting_witness :
    matchesGreeting "tell me the rent amount" = false ∧
    (((answerQuestion (fun _ => "M") (fun _ _ => 0) 0 "tell me the rent amount"
        (some "the rent is 1800") none).hasContext = true ↔
      assembleContext (fun _ _ => 0) "tell me the rent amount"
        (some "the rent is 1800") none ≠ "") ∧
     (answerQuestion (fun _ => "M") (fun _ _ => 0) 0 "tell me the rent amount"
        (some "the rent is 1800") none).queryType ∈
      [some "platform", some "document", some "general"]) :=
  ⟨by decide,
   C2_hasContext_iff_nongreeting (fun _ => "M") (fun _ _ => 0) 0
     "tell me the rent amount" (some "the rent is 1800") none (by decide)⟩

/-- Counterexample to C2 as stated: the greeting short-circuit (step 1)
returns `hasContext = true` although no context string was assembled by steps
2-4 (the step 2-4 context for "hi" is empty), and it carries no `queryType`
at all. -/
theorem C2_greeting_hasContext_counterexample :
    (answerQuestion (fun _ => "M") (fun _ _ => 0) 0 "hi" none none).hasContext
      = true ∧
    assembleContext (fun _ _ => 0) "hi" none none = "" ∧
    (answerQuestion (fun _ => "M") (fun _ _ => 0) 0 "hi" none none).queryType
      = none := by decide

/-- C4: a document whose extracted text trims to fewer than 50 characters
terminates with status failed carrying the insufficient-content message, and
never with status completed (the result is definitionally the failed status,
whatever the analysis and embedding outcomes are). -/
theorem C4_short_content_fails
    (splitText : String → List String) (st : OllamaState)
    (contractId fileName mimetype userId : String)
    (pdfParse ocrEngine : Except String String)
    (genE : String → Except String String) (utf8Content : String)
    (analysisResult : Except String String) (embedError : Option String)
    (extractedText : String)
    (hext : extractTextFromFile mimetype fileName pdfParse ocrEngine genE
      utf8Content = .ok extractedText)
    (hshort : (jsTrim extractedText).length < 50) :
    (processContractBody splitText st contractId fileName mimetype userId
      pdfParse ocrEngine genE utf8Content analysisResult embedError).2 =
      ProcResult.failed insufficientContentMsg := by
  simp only [processContractBody, hext]
  rw [if_pos (by simp [hshort])]

/-- Witness for C4 at a 10-character extracted text. -/
theorem C4_short_content_fails_witness :
    extractTextFromFile "text/plain" "t.txt" (.error "x") (.error "x")
      (fun _ => .error "x") "10 chars!!" = .ok "10 chars!!" ∧
    (jsTrim "10 chars!!").length = 10 ∧
    (processContractBody (fun s => [s]) initialOllamaState "c1" "t.txt"
      "text/plain" "u1" (.error "x") (.error "x") (fun _ => .error "x")
      "10 chars!!" (.ok "A") none).2 = ProcResult.failed insufficientContentMsg :=
  ⟨by decide, by decide,
   C4_short_content_fails (fun s => [s]) initialOllamaState "c1" "t.txt"
     "text/plain" "u1" (.error "x") (.error "x") (fun _ => .error "x")
     "10 chars!!" (.ok "A") none "10 chars!!" (by decide) (by decide)⟩

/-- C6: evaluation at the failing input.  The reprocess route on a failed
contract resets the status to processing and responds 200, but its effect
list contains no re-entry into the processing pipeline (the handler's own
comment says the re-trigger is missing), so the document can never reach a
terminal state again; a non-failed contract is rejected with 400. -/
theorem C6_reprocess_does_not_reenter :
    reprocessRoute (some ⟨"c-f", "u1", "T", "f.pdf", none, "failed"⟩) =
      [RouteEffect.updateStatus "c-f" "processing", RouteEffect.respond 200] ∧
    RouteEffect.startPipeline "c-f" ∉
      reprocessRoute (some ⟨"c-f", "u1", "T", "f.pdf", none, "failed"⟩) ∧
    reprocessRoute (some ⟨"c-c", "u1", "T", "f.pdf", none, "completed"⟩) =
      [RouteEffect.respond 400] := by decide

/-- The media-type classes the claim C8 names as supported: pdf, the image
types jpeg/png/tiff/bmp/webp, and the plain-text or word-processing types
(stated from the spec's words, for the hypothesis of the claim). -/
def claimSupportedClasses (m : String) : Bool :=
  m == "application/pdf" ||
  ["image/jpeg", "image/png", "image/tiff", "image/bmp", "image/webp"].contains m ||
  ["text/plain", "application/msword",
   "application/vnd.openxmlformats-officedocument.wordprocessingml.document"].contains m

/-- C8: every upload whose declared media type is in none of the claim's
supported classes is rejected by the pipeline (the multer fileFilter, behind
which alone the extractor is reachable) with the unsupported-file-type error,
so no text is ever returned for it. -/
theorem C8_unsupported_type_rejected (mimetype fileName : String)
    (pdfParse ocrEngine : Except String String)
    (genE : String → Except String String) (utf8Content : String)
    (h : claimSupportedClasses mimetype = false) :
    uploadAndExtract mimetype fileName pdfParse ocrEngine genE utf8Content =
      .error (fileFilterError mimetype) := by
  have hacc : fileFilterAccepts mimetype = false := by
    cases hb : fileFilterAccepts mimetype
    · rfl
    · have hmem : mimetype ∈ allowedTypes := by
        simpa [fileFilterAccepts] using hb
      simp only [allowedTypes, List.mem_cons, List.not_mem_nil, or_false] at hmem
      rcases hmem with rfl | rfl | rfl | rfl | rfl | rfl | rfl <;>
        simp [claimSupportedClasses] at h
  rw [uploadAndExtract, if_neg (by simp [hacc])]

/-- Witness for C8 at the media type application/zip. -/
theorem C8_unsupported_type_rejected_witness :
    claimSupportedClasses "application/zip" = false ∧
    uploadAndExtract "application/zip" "a.zip" (.error "x") (.error "x")
      (fun _ => .error "x") "PK" = .error (fileFilterError "application/zip") :=
  ⟨by decide,
   C8_unsupported_type_rejected "application/zip" "a.zip" (.error "x")
     (.error "x") (fun _ => .error "x") "PK" (by decide)⟩

/-- C9 (amended theorem): every question whose trimmed form is, case
insensitively, a canonical greeting followed only by whitespace, `!` or `?`
(the characters the source pattern accepts — not arbitrary trailing
punctuation) is answered from the fixed canned greeting set without invoking
the generation model. -/
theorem C9_greeting_short_circuit (gen : String → String)
    (score : String → Passage → Int) (rnd : Nat) (question : String)
    (context : Option String) (store : Option (List Passage))
    (hg : matchesGreeting question = true) :
    (answerQuestion gen score rnd question context store).usedGenerationModel
      = false ∧
    (answerQuestion gen score rnd question context store).answer ∈
      greetingResponses := by
  rw [answerQuestion, if_pos hg]
  refine ⟨rfl, ?_⟩
  have hlen : rnd % greetingResponses.length < greetingResponses.length :=
    Nat.mod_lt _ (by decide)
  show greetingResponses.getD (rnd % greetingResponses.length) "" ∈ greetingResponses
  rw [List.getD_eq_getElem?_getD, List.getElem?_eq_getElem hlen]
  simp only [Option.getD_some]
  exact List.getElem_mem hlen

/-- Witness for C9 at the exact input "hi". -/
theorem C9_greeting_short_circuit_witness :
    matchesGreeting "hi" = true ∧
    ((answerQuestion (fun _ => "M") (fun _ _ => 0) 1 "hi" none none).usedGenerationModel
       = false ∧
     (answerQuestion (fun _ => "M") (fun _ _ => 0) 1 "hi" none none).answer ∈
       greetingResponses) :=
  ⟨by decide,
   C9_greeting_short_circuit (fun _ => "M") (fun _ _ => 0) 1 "hi" none none
     (by decide)⟩

/-- Counterexample to C9 as stated: the input "hi." — the greeting "hi" with
trailing punctuation — does not match the source pattern (which accepts only
whitespace, `!` and `?` after the greeting word), so answerQuestion invokes
the generation model and its answer is not in the canned greeting set. -/
theorem C9_trailing_period_counterexample :
    matchesGreeting "hi." = false ∧
    (answerQuestion (fun _ => "MODEL OUTPUT") (fun _ _ => 0) 0 "hi." none
      none).usedGenerationModel = true ∧
    (answerQuestion (fun _ => "MODEL OUTPUT") (fun _ _ => 0) 0 "hi." none
      none).answer ∉ greetingResponses := by decide

/-- The completed contract of the C5 deletion scenario. -/
def c5Text : String :=
  "This lease agreement sets the monthly rent at 1800 and the total deposit at 3600."

/-- The contracts row of the C5 deletion scenario. -/
def c5Contract : Contract :=
  ⟨"c1", "u1", "Doc One", "one.txt", some c5Text, "completed"⟩

/-- The service state after processing the C5 contract (its passage is in the
user's isolated store). -/
def c5StateAfterProcess : OllamaState :=
  (processContractBody (fun s => [s]) initialOllamaState "c1" "one.txt"
    "text/plain" "u1" (.error "x") (.error "x") (fun _ => .error "x") c5Text
    (.ok "A") none).1

/-- The service state after additionally loading the user's corpus into the
global store for a chat query. -/
def c5StateAfterLoad : OllamaState :=
  (loadUserDocuments (fun s => [s]) c5StateAfterProcess [c5Contract] "u1").1

/-- C5: evaluation at the failing input.  Processing completes and the
contract's passage sits in both the per-user store and (after a chat load)
the global store; the delete route then succeeds (200, row gone), because the
TypeError from the nonexistent `ollamaService.clearDocumentStore` is caught
and only logged — and the deleted contract's passage is still in the
per-user index and still returned by a similarity search on the global index,
contradicting the claim that no passage of a deleted document stays
retrievable. -/
theorem C5_delete_leaves_embeddings :
    (processContractBody (fun s => [s]) initialOllamaState "c1" "one.txt"
       "text/plain" "u1" (.error "x") (.error "x") (fun _ => .error "x") c5Text
       (.ok "A") none).2 = ProcResult.completed c5Text "A" ∧
    invokeClearDocumentStore c5StateAfterLoad "c1" =
      .error "ollamaService.clearDocumentStore is not a function" ∧
    (deleteContractRoute c5StateAfterLoad [c5Contract] "c1" "u1").httpStatus
      = 200 ∧
    (deleteContractRoute c5StateAfterLoad [c5Contract] "c1" "u1").db = [] ∧
    ((getUserVectorStore
        (deleteContractRoute c5StateAfterLoad [c5Contract] "c1" "u1").svc
        "u1").getD []).map Passage.contractId = ["c1"] ∧
    (((similaritySearchSvc (fun _ _ => 0)
        (deleteContractRoute c5StateAfterLoad [c5Contract] "c1" "u1").svc.vectorStore
        "what is the rent" 3).toOption.getD []).map Passage.contractId)
      = ["c1"] := by decide

/-- C7: the two OCR failure modes.  An OCR-engine failure is fatal: extraction
for an image rejects with the wrapped OCR error and processing terminates
failed (no silent fallback).  A generation-model enhancement failure on top of
successful OCR degrades: enhancedOCR resolves with `enhancedText = null`, the
summary `Enhancement failed` and the error note, extraction uses the raw OCR
text, and processing continues to a completed status when the remaining
stages succeed. -/
theorem C7_ocr_failure_fatal_enhancement_degrades
    (splitText : String → List String) (st : OllamaState)
    (contractId userId mimetype fileName : String)
    (pdfParse : Except String String) (utf8Content : String)
    (analysis : String) (e raw g : String)
    (him : strStartsWith mimetype "image/" = true)
    (hnp : (mimetype == "application/pdf") = false)
    (hne : (cleanOcrText raw).isEmpty = false)
    (hlen10 : ¬ (jsTrim (cleanOcrText raw)).length < 10)
    (hlen50 : ¬ (jsTrim (cleanOcrText raw)).length < 50) :
    (∀ genE, extractTextFromFile mimetype fileName pdfParse (.error e) genE
       utf8Content =
       .error ("Failed to extract text from " ++ fileName ++ ": " ++
         ("OCR failed: " ++ e))) ∧
    (∀ genE, (processContractBody splitText st contractId fileName mimetype
       userId pdfParse (.error e) genE utf8Content (.ok analysis) none).2 =
       ProcResult.failed ("Failed to extract text from " ++ fileName ++ ": " ++
         ("OCR failed: " ++ e))) ∧
    enhancedOCR (.ok raw) (fun _ => .error g) =
      .ok { rawText := cleanOcrText raw, enhancedText := none,
            summary := "Enhancement failed", confidence := none,
            errorNote := some g } ∧
    extractTextFromFile mimetype fileName pdfParse (.ok raw)
      (fun _ => .error g) utf8Content = .ok (cleanOcrText raw) ∧
    (processContractBody splitText st contractId fileName mimetype userId
      pdfParse (.ok raw) (fun _ => .error g) utf8Content (.ok analysis)
      none).2 = ProcResult.completed (cleanOcrText raw) analysis := by
  have hfatal : ∀ genE : String → Except String String,
      extractTextFromFile mimetype fileName pdfParse (.error e) genE
        utf8Content =
      .error ("Failed to extract text from " ++ fileName ++ ": " ++
        ("OCR failed: " ++ e)) := by
    intro genE
    rw [extractTextFromFile.eq_def, if_neg (by simp [hnp]), if_pos him]
    simp [enhancedOCR, extractTextFromImage]
  have henh : enhancedOCR (.ok raw) (fun _ => .error g) =
      .ok { rawText := cleanOcrText raw, enhancedText := none,
            summary := "Enhancement failed", confidence := none,
            errorNote := some g } := by
    rw [enhancedOCR]
    simp only [extractTextFromImage]
    rw [if_neg (by simp [hne, hlen10])]
  have hdeg : extractTextFromFile mimetype fileName pdfParse (.ok raw)
      (fun _ => .error g) utf8Content = .ok (cleanOcrText raw) := by
    rw [extractTextFromFile.eq_def, if_neg (by simp [hnp]), if_pos him, henh]
  refine ⟨hfatal, ?_, henh, hdeg, ?_⟩
  · intro genE
    simp only [processContractBody, hfatal genE]
  · simp only [processContractBody, hdeg]
    rw [if_neg (by simp [hne, hlen50])]

/-- Witness for C7 at a PNG whose OCR text is a 62-character sentence. -/
theorem C7_ocr_failure_fatal_enhancement_degrades_witness :
    strStartsWith "image/png" "image/" = true ∧
    (("image/png" : String) == "application/pdf") = false ∧
    ((cleanOcrText "The party of the first part agrees to the stated terms herein.").isEmpty = false ∧
     ¬ (jsTrim (cleanOcrText "The party of the first part agrees to the stated terms herein.")).length < 10 ∧
     ¬ (jsTrim (cleanOcrText "The party of the first part agrees to the stated terms herein.")).length < 50) ∧
    extractTextFromFile "image/png" "scan.png" (.error "p")
      (.ok "The party of the first part agrees to the stated terms herein.")
      (fun _ => .error "model down") "" =
      .ok (cleanOcrText "The party of the first part agrees to the stated terms herein.") ∧
    (processContractBody (fun s => [s]) initialOllamaState "c9" "scan.png"
      "image/png" "u1" (.error "p") (.error "engine crashed")
      (fun _ => .error "model down") "" (.ok "A") none).2 =
      ProcResult.failed ("Failed to extract text from " ++ "scan.png" ++ ": " ++
        ("OCR failed: " ++ "engine crashed")) :=
  ⟨by decide, by decide, ⟨by decide, by decide, by decide⟩,
   (C7_ocr_failure_fatal_enhancement_degrades (fun s => [s]) initialOllamaState
     "c9" "u1" "image/png" "scan.png" (.error "p") "" "A" "engine crashed"
     "The party of the first part agrees to the stated terms herein."
     "model down" (by decide) (by decide) (by decide) (by decide)
     (by decide)).2.2.2.1,
   (C7_ocr_failure_fatal_enhancement_degrades (fun s => [s]) initialOllamaState
     "c9" "u1" "image/png" "scan.png" (.error "p") "" "A" "engine crashed"
     "The party of the first part agrees to the stated terms herein."
     "model down" (by decide) (by decide) (by decide) (by decide)
     (by decide)).2.1 (fun _ => .error "model down")⟩

/-- C10: a chat query with no Authorization token, or with a token failing
verification, is never rejected as unauthorized (the route has no such
branch and optionalAuth always continues): it runs as the fixed demo user
id, and with a contractId it is answered from the built-in demo contract
table, the unknown-id lookup defaulting to the demo employment agreement —
never from a real user's document. -/
theorem C10_demo_fallback (gen : String → String)
    (score : String → Passage → Int) (splitText : String → List String)
    (rnd : Nat) (token : Option String) (verify : String → Option String)
    (st : OllamaState) (db : List Contract) (cid q : String)
    (hq : q.isEmpty = false)
    (hauth : token = none ∨ ∃ t, token = some t ∧ verify t = none) :
    optionalAuth token verify = demoUserId ∧
    (∀ (cid' qm : Option String),
      (chatQueryRoute gen score splitText rnd token verify st db cid' qm).2 ≠
        ChatQueryOutcome.unauthorized) ∧
    (chatQueryRoute gen score splitText rnd token verify st db (some cid)
      (some q)).2 =
      ChatQueryOutcome.answered demoUserId
        (answerQuestion gen score rnd q (some (lookupDemoContract cid).content)
          st.vectorStore) := by
  have hdemo : optionalAuth token verify = demoUserId := by
    rcases hauth with rfl | ⟨t, rfl, hv⟩
    · rfl
    · simp [optionalAuth, hv]
  refine ⟨hdemo, ?_, ?_⟩
  · intro cid' qm
    rcases qm with _ | q'
    · simp [chatQueryRoute]
    · by_cases hq' : q'.isEmpty = true
      · simp [chatQueryRoute, hq']
      · rcases cid' with _ | c
        · simp [chatQueryRoute, hq']
        · by_cases hd : (optionalAuth token verify == demoUserId) = true
          · simp [chatQueryRoute, hq', hd]
          · cases hfind : db.find? fun x => x.id == c && x.userId ==
                optionalAuth token verify with
            | none => simp [chatQueryRoute, hq', hd, hfind]
            | some cc =>
              by_cases hst : (cc.status != "completed") = true
              · simp [chatQueryRoute, hq', hd, hfind, hst]
              · simp [chatQueryRoute, hq', hd, hfind, hst]
  · simp [chatQueryRoute, hq, hdemo]

set_option maxRecDepth 10000 in
/-- Witness for C10: no token at all, an unknown contract id. -/
theorem C10_demo_fallback_witness :
    ("summarize the contract" : String).isEmpty = false ∧
    lookupDemoContract "unknown-xyz" = demoEmployment ∧
    (optionalAuth none (fun _ => none) = demoUserId ∧
     (∀ (cid' qm : Option String),
       (chatQueryRoute (fun _ => "M") (fun _ _ => 0) (fun s => [s]) 0 none
         (fun _ => none) initialOllamaState [] cid' qm).2 ≠
         ChatQueryOutcome.unauthorized) ∧
     (chatQueryRoute (fun _ => "M") (fun _ _ => 0) (fun s => [s]) 0 none
       (fun _ => none) initialOllamaState [] (some "unknown-xyz")
       (some "summarize the contract")).2 =
       ChatQueryOutcome.answered demoUserId
         (answerQuestion (fun _ => "M") (fun _ _ => 0) 0
           "summarize the contract"
           (some (lookupDemoContract "unknown-xyz").content)
           initialOllamaState.vectorStore)) :=
  ⟨by decide, by decide,
   C10_demo_fallback (fun _ => "M") (fun _ _ => 0) (fun s => [s]) 0 none
     (fun _ => none) initialOllamaState [] "unknown-xyz"
     "summarize the contract" (by decide) (Or.inl rfl)⟩

/-- C1 (amended theorem): when the single shared global store is the one that
`loadUserDocuments` just (re)built for user A — that is, sequentially, with no
other user's load interleaved between A's load and A's query — every passage
answerQuestion's retrieval step returns carries metadata userId = A, because
the load maps only A's completed contracts to documents stamped with A's id
and the splitter chunks inherit that metadata.  The claim as stated fails
because retrieval reads this shared global store, not a per-user store: see
the interleaving counterexample. -/
theorem C1_isolation_sequential_load
    (splitText : String → List String) (score : String → Passage → Int)
    (st : OllamaState) (db : List Contract) (userA question : String)
    (hloaded : (loadUserDocuments splitText st db userA).2 = true)
    (p : Passage)
    (hmem : p ∈ retrievedPassages score question none
      ((loadUserDocuments splitText st db userA).1.vectorStore)) :
    p.userId = userA := by
  rw [loadUserDocuments] at hloaded hmem
  by_cases hemp : (userCompletedContracts db userA).isEmpty
  · rw [if_pos hemp] at hloaded
    simp at hloaded
  · rw [if_neg hemp] at hmem
    rw [retrievedPassages.eq_def] at hmem
    by_cases happ : isApplicationQuery question = true
    · rw [if_neg (by simp [jsFalsyStr]), if_pos happ] at hmem
      simp at hmem
    · rw [if_neg (by simp [jsFalsyStr]), if_neg happ] at hmem
      simp only [createVectorStore] at hmem
      have hp := mem_topKPassages hmem
      refine userId_of_mem_splitDocuments ?_ hp
      intro d hd
      simp only [List.mem_map] at hd
      obtain ⟨c, -, rfl⟩ := hd
      rfl

/-- The two completed contracts of the C1 scenario, one per user. -/
def contractA : Contract :=
  ⟨"c-a", "userA", "Alpha", "alpha.txt",
   some "rent is 1800 per month for the apartment", "completed"⟩

/-- The second user's contract for the C1 scenario. -/
def contractB : Contract :=
  ⟨"c-b", "userB", "Beta", "beta.txt",
   some "salary is 95000 per year for the engineer", "completed"⟩

/-- Witness for C1 at a one-contract corpus for user A. -/
theorem C1_isolation_sequential_load_witness :
    (loadUserDocuments (fun s => [s]) initialOllamaState [contractA]
      "userA").2 = true ∧
    (⟨"rent is 1800 per month for the apartment", "c-a", "alpha.txt", "Alpha",
      "userA"⟩ : Passage) ∈
      retrievedPassages (fun _ _ => 0) "tell me the rent amount" none
        ((loadUserDocuments (fun s => [s]) initialOllamaState [contractA]
          "userA").1.vectorStore) ∧
    (⟨"rent is 1800 per month for the apartment", "c-a", "alpha.txt", "Alpha",
      "userA"⟩ : Passage).userId = "userA" :=
  ⟨by decide, by decide,
   C1_isolation_sequential_load (fun s => [s]) (fun _ _ => 0)
     initialOllamaState [contractA] "userA" "tell me the rent amount"
     (by decide) _ (by decide)⟩

/-- Counterexample to C1 as stated: the retrieval path reads the single
shared global `vectorStore`, which `loadUserDocuments` rebuilds wholesale.
Both loads and answerQuestion await external calls, so two concurrent chat
requests can interleave as load(A); load(B); answer-for-A; after that
schedule — a state in which A's documents have been loaded — the retrieval
on behalf of A (no explicit context) returns exactly one passage and its
metadata userId is "userB", not "userA", and the answer still reports
hasContext = true.  There is thus a cross-user path, against the claim's
"never". -/
theorem C1_interleaved_load_counterexample :
    (loadUserDocuments (fun s => [s]) initialOllamaState
      [contractA, contractB] "userA").2 = true ∧
    matchesGreeting "tell me the rent amount" = false ∧
    ((retrievedPassages (fun _ _ => 0) "tell me the rent amount" none
      ((loadUserDocuments (fun s => [s])
        (loadUserDocuments (fun s => [s]) initialOllamaState
          [contractA, contractB] "userA").1
        [contractA, contractB] "userB").1.vectorStore)).map Passage.userId)
      = ["userB"] ∧
    (answerQuestion (fun _ => "M") (fun _ _ => 0) 0 "tell me the rent amount"
      none
      ((loadUserDocuments (fun s => [s])
        (loadUserDocuments (fun s => [s]) initialOllamaState
          [contractA, contractB] "userA").1
        [contractA, contractB] "userB").1.vectorStore)).hasContext = true := by
  decide

/-- The jobs of the C3 admission scenario: MAX_CONCURRENT_PER_USER + 2
uploads by one user. -/
def c3Job (n : Nat) : Job := ⟨n, "u1"⟩

/-- The C3 scenario's submitted jobs. -/
def c3Jobs : List Job :=
  [c3Job 1, c3Job 2, c3Job 3, c3Job 4, c3Job 5]

/-- A schedule for the C3 scenario: three admissions fill the per-user cap,
the other two jobs defer and are admitted as slots free, and all five
finish. -/
def c3Schedule : List CoordAction :=
  [.acquire (c3Job 1), .acquire (c3Job 2), .acquire (c3Job 3),
   .defer (c3Job 4), .defer (c3Job 5),
   .finish (c3Job 1), .acquire (c3Job 4), .finish (c3Job 2), .acquire (c3Job 5),
   .finish (c3Job 3), .finish (c3Job 4), .finish (c3Job 5)]

/-- C3: over every schedule of the admission-control transition system, at
every reachable instant each user has at most MAX_CONCURRENT_PER_USER (3)
actively processing jobs and at most MAX_GLOBAL_CONCURRENT (10) are active
globally, and the submitted jobs are always exactly the pending, active and
done jobs — no job is dropped.  Moreover, in the MAX_CONCURRENT_PER_USER + 2
scenario, an admission attempted at the cap changes nothing (the job stays
deferred), and the given schedule carries all five jobs to the terminal done
state. -/
theorem C3_caps_respected_jobs_not_dropped :
    (∀ (jobs : List Job) (acts : List CoordAction) (u : String),
      activeOf (runCoord (initCoord jobs) acts) u ≤ MAX_CONCURRENT_PER_USER ∧
      (runCoord (initCoord jobs) acts).active.length ≤ MAX_GLOBAL_CONCURRENT ∧
      List.Perm ((runCoord (initCoord jobs) acts).pending ++
        (runCoord (initCoord jobs) acts).active ++
        (runCoord (initCoord jobs) acts).done) jobs) ∧
    runCoord (initCoord c3Jobs)
      [.acquire (c3Job 1), .acquire (c3Job 2), .acquire (c3Job 3), .acquire (c3Job 4)] =
    runCoord (initCoord c3Jobs)
      [.acquire (c3Job 1), .acquire (c3Job 2), .acquire (c3Job 3)] ∧
    activeOf (runCoord (initCoord c3Jobs)
      [.acquire (c3Job 1), .acquire (c3Job 2), .acquire (c3Job 3)]) "u1" = 3 ∧
    (runCoord (initCoord c3Jobs) c3Schedule).pending = [] ∧
    (runCoord (initCoord c3Jobs) c3Schedule).active = [] ∧
    (runCoord (initCoord c3Jobs) c3Schedule).done.length = 5 := by
  refine ⟨?_, by decide, by decide, by decide, by decide, by decide⟩
  intro jobs acts u
  have h := coordInv_run jobs acts _ (coordInv_init jobs)
  exact ⟨h.2.2.2.1 u, h.2.2.2.2.1, h.2.2.2.2.2⟩

end SCAI
